import Mathlib

/-!
Shallow embedding of `examples/save-load-state/save-load-state.cpp` (the
save/restore continuation harness) together with theorems about its behavior.
The external llama engine is modelled as an abstract deterministic machine,
and the harness's control flow is translated step for step from the source.
-/

namespace SaveLoadState

/-- Token ids (`llama_token` is a 32-bit integer in the source; modelled as `Int`). -/
abbrev Token := Int

/-- One candidate entry, mirroring `llama_token_data` with fields
`(id, logit, p)`; the float scores are opaque data here, modelled as `Int`. -/
structure TokenData where
  id : Token
  logit : Int
  p : Int
  deriving Repr, DecidableEq

/-- Modelled from the spec: the external Engine Handle contract of spec
section 6.  The llama library functions called by the harness
(`llama_init_from_file`, `llama_get_state_size`, `llama_copy_state_data`,
`llama_set_state_data`, `llama_eval`, `llama_n_vocab`, `llama_get_logits`,
`llama_sample_token`, `llama_tokenize`) are code of the repository that is not
under `src/`; only their caller is.  A deterministic engine over state type
`σ` and state-buffer byte type `β`:

* `init` is the state of a context freshly created from the fixed model file
  and configuration (`llama_init_from_file`);
* `eval s toks pos` returns `(success, new state)` — the source checks the
  status only where it does;
* `sampleToken` returns the chosen token together with the (possibly
  advanced, e.g. rng) state;
* `tokenize` returns the reported token count and the token buffer contents.
-/
structure Engine (σ β : Type) where
  init : σ
  getStateSize : σ → Nat
  copyStateData : σ → List β
  setStateData : σ → List β → σ
  eval : σ → List Token → Nat → Bool × σ
  nVocab : σ → Nat
  getLogits : σ → Nat → Int
  sampleToken : σ → List TokenData → Token × σ
  tokenize : σ → String → Int × List Token

/-- Replace only the `setStateData` operation of an engine (used to state
that a phase never invokes the restore operation). -/
def withSetState {σ β : Type} (E : Engine σ β) (g : σ → List β → σ) : Engine σ β :=
  ⟨E.init, E.getStateSize, E.copyStateData, g, E.eval, E.nVocab, E.getLogits,
   E.sampleToken, E.tokenize⟩

/-- Lines 84-93 / 142-149 of the source: build the candidate list — one
`llama_token_data {token_id, logits[token_id], 0.0f}` per vocabulary entry,
for `token_id = 0, …, n_vocab - 1` in order. -/
def buildCandidates (logits : Nat → Int) (nVocab : Nat) : List TokenData :=
  (List.range nVocab).map fun (i : Nat) => ⟨(i : Int), logits i, 0⟩

/-- Result of one generation loop (lines 82-107 resp. 140-160):
the emitted (printed) tokens, the final `last_n_tokens_data`, the final
`n_past`, the final context state, the trace of `llama_eval` calls as
`(position passed, token count)` pairs, and whether the loop completed
without an evaluation failure. -/
structure RunResult (σ : Type) where
  tokens : List Token
  hist : List Token
  nPast : Nat
  ctx : σ
  calls : List (Nat × Nat)
  ok : Bool
  deriving Repr, DecidableEq

/-- The generation loop of the source (lines 82-107, identically 140-160):
per iteration build candidates from the current logits, sample the next
token, append it to `last_n_tokens_data`, print it, then `llama_eval` it at
the current `n_past`; on evaluation failure print a diagnostic and exit
(the failed step's position is not advanced). -/
def genLoop {σ β : Type} (E : Engine σ β) : Nat → σ → List Token → Nat → RunResult σ
  | 0, ctx, hist, nPast => ⟨[], hist, nPast, ctx, [], true⟩
  | n + 1, ctx, hist, nPast =>
      let st := E.sampleToken ctx (buildCandidates (E.getLogits ctx) (E.nVocab ctx))
      let ev := E.eval st.2 [st.1] nPast
      if ev.1 then
        let r := genLoop E n ev.2 (hist ++ [st.1]) (nPast + 1)
        ⟨st.1 :: r.tokens, r.hist, r.nPast, r.ctx, (nPast, 1) :: r.calls, r.ok⟩
      else
        ⟨[st.1], hist ++ [st.1], nPast, ev.2, [(nPast, 1)], false⟩

/-- The failure modes of the program: each corresponds to one of the
`return 1` sites of `main` (failed tokenization, failed `llama_eval` inside
a generation loop, failed state-size validation, failed/short state read). -/
inductive ExitErr : Type where
  | TokenizeError : ExitErr
  | EvaluateError : ExitErr
  | SizeMismatch : ExitErr
  | IOError : ExitErr
  deriving Repr, DecidableEq

/-- State after the prompt phase: context after the prompt evaluation,
`last_n_tokens_data`, `n_past`, the `llama_eval` call trace so far, and the
(discarded by the source, line 58) status of the prompt evaluation. -/
structure SetupResult (σ : Type) where
  ctx : σ
  hist : List Token
  nPast : Nat
  calls : List (Nat × Nat)
  promptOk : Bool
  deriving Repr, DecidableEq

/-- The successful outcome of lines 41-62: tokenize the prompt, evaluate the
first `n_prompt_tokens` buffer entries at `n_past = 0` (status discarded),
append them to the zero-initialized `last_n_tokens_data` window of size
`repeat_last_n`, and advance `n_past` by `n_prompt_tokens`. -/
def setupResultOf {σ β : Type} (E : Engine σ β) (repeatLastN : Nat) (prompt : String) :
    SetupResult σ :=
  let tk := E.tokenize E.init prompt
  let promptToks := tk.2.take tk.1.toNat
  let er := E.eval E.init promptToks 0
  ⟨er.2, List.replicate repeatLastN 0 ++ promptToks, tk.1.toNat,
   [(0, tk.1.toNat)], er.1⟩

/-- Lines 41-62 of the source: initialize `n_past = 0` and the token window,
create the context, tokenize the prompt, and fail (`return 1`) when
`n_prompt_tokens < 1`; otherwise evaluate the prompt. -/
def setupPhase {σ β : Type} (E : Engine σ β) (repeatLastN : Nat) (prompt : String) :
    Except ExitErr (SetupResult σ) :=
  if (E.tokenize E.init prompt).1 < 1 then Except.error ExitErr.TokenizeError
  else Except.ok (setupResultOf E repeatLastN prompt)

/-- The checkpoint of lines 64-78: the queried state size, the captured state
buffer, the resulting contents of `dump_state.bin` (through the durable
storage model `fsWrite`; the source checks neither `fopen` nor `fwrite`),
and the saved copies of `last_n_tokens_data` and `n_past`. -/
structure CheckpointResult (β : Type) where
  stateSize : Nat
  stateMem : List β
  file : List β
  savedHist : List Token
  savedNPast : Nat
  deriving Repr, DecidableEq

/-- Lines 64-78 of the source: query `llama_get_state_size`, capture the
state with `llama_copy_state_data`, write it to `dump_state.bin` (no error
check anywhere in the block), and take value copies of
`last_n_tokens_data` and `n_past`. -/
def checkpointPhase {σ β : Type} (E : Engine σ β) (fsWrite : List β → List β)
    (ctx : σ) (hist : List Token) (nPast : Nat) : CheckpointResult β :=
  ⟨E.getStateSize ctx, E.copyStateData ctx, fsWrite (E.copyStateData ctx), hist, nPast⟩

/-- Lines 114-131 of the source: create the second context, validate the
saved `state_size` against `llama_get_state_size(ctx2)` (`return 1` on
mismatch, before any byte is read), `fread` up to `state_size` bytes
(`return 1` when fewer arrive; they are never zero-padded), and only then
apply `llama_set_state_data`. -/
def loadPhase {σ β : Type} (E : Engine σ β) (file : List β) (stateSize : Nat) :
    Except ExitErr σ :=
  if stateSize ≠ E.getStateSize E.init then Except.error ExitErr.SizeMismatch
  else if (file.take stateSize).length ≠ stateSize then Except.error ExitErr.IOError
  else Except.ok (E.setStateData E.init (file.take stateSize))

/-- Line 28-30 of the source: a negative `n_predict` is replaced by 16. -/
def effectiveNPredict (n : Int) : Int := if n < 0 then 16 else n

/-- Observable outcome of `main`: exit code, the failure (if any), the token
sequences S1 and S2 printed by the two generation runs, and the `llama_eval`
call traces of the first context (prompt + run 1) and the second context
(run 2). -/
structure ProgResult : Type where
  exitCode : Nat
  err : Option ExitErr
  s1 : List Token
  s2 : List Token
  calls1 : List (Nat × Nat)
  calls2 : List (Nat × Nat)
  deriving Repr, DecidableEq

/-- Lines 64-165 of the source, after a successful prompt phase: checkpoint,
first generation run, context tear-down and re-creation, load/validate/
restore, reset of `last_n_tokens_data` and `n_past` to the saved copies
(lines 135-137), second generation run, `return 0`. -/
def afterSetup {σ β : Type} (E : Engine σ β) (fsWrite : List β → List β)
    (nPredict : Nat) (s : SetupResult σ) : ProgResult :=
  let cp := checkpointPhase E fsWrite s.ctx s.hist s.nPast
  let r1 := genLoop E nPredict s.ctx s.hist s.nPast
  if r1.ok then
    match loadPhase E cp.file cp.stateSize with
    | Except.error e => ⟨1, some e, r1.tokens, [], s.calls ++ r1.calls, []⟩
    | Except.ok ctx2 =>
        let r2 := genLoop E nPredict ctx2 cp.savedHist cp.savedNPast
        if r2.ok then ⟨0, none, r1.tokens, r2.tokens, s.calls ++ r1.calls, r2.calls⟩
        else ⟨1, some ExitErr.EvaluateError, r1.tokens, r2.tokens,
              s.calls ++ r1.calls, r2.calls⟩
  else ⟨1, some ExitErr.EvaluateError, r1.tokens, [], s.calls ++ r1.calls, []⟩

/-- The whole of `main` (lines 11-166) for a fixed model and configuration:
parameters are the engine, the durable-storage write model, the prompt, the
configured `n_predict` (an `int`, possibly negative) and `repeat_last_n`. -/
def runProgram {σ β : Type} (E : Engine σ β) (fsWrite : List β → List β)
    (prompt : String) (nPredictParam : Int) (repeatLastN : Nat) : ProgResult :=
  match setupPhase E repeatLastN prompt with
  | Except.error e => ⟨1, some e, [], [], [], []⟩
  | Except.ok s => afterSetup E fsWrite ((effectiveNPredict nPredictParam).toNat) s

/-- An eval-call trace `(position, count) :: …` is position-consistent from
`p` when each call is passed the counter value current before it and the
counter then advances by the call's token count. -/
def posConsistent : Nat → List (Nat × Nat) → Bool
  | _, [] => true
  | p, c :: rest => c.1 == p && posConsistent (p + c.2) rest

/-- The default prompt of the source (line 17). -/
def samplePrompt : String := "The quick brown fox"

/-- A concrete engine satisfying the Engine Handle contract: the state is a
single integer, fully captured by a one-element state buffer; sampling
returns the state itself and evaluation adds the token count, so generated
tokens reveal the state trajectory. -/
def goodEngine : Engine Int Int :=
  ⟨0, fun _ => 1, fun s => [s], fun _ b => b.headI,
   fun s toks _ => (true, s + toks.length),
   fun _ => 1, fun s i => s + i,
   fun s _ => (s, s),
   fun _ _ => (2, [5, 6])⟩

/-- An engine that violates the restore contract: `setStateData` ignores the
buffer and produces the state 999. -/
def badRestoreEngine : Engine Int Int := withSetState goodEngine fun _ _ => 999

/-- An engine whose `eval` always reports failure (and leaves the state). -/
def failEvalEngine : Engine Int Int :=
  ⟨0, fun _ => 1, fun s => [s], fun _ b => b.headI,
   fun s _ _ => (false, s),
   fun _ => 1, fun s i => s + i,
   fun s _ => (s, s),
   fun _ _ => (2, [5, 6])⟩

/-- An engine whose tokenizer reports zero tokens for every prompt. -/
def emptyTokEngine : Engine Int Int :=
  ⟨0, fun _ => 1, fun s => [s], fun _ b => b.headI,
   fun s toks _ => (true, s + toks.length),
   fun _ => 1, fun s i => s + i,
   fun s _ => (s, s),
   fun _ _ => (0, [])⟩

/-- A successful prompt phase always yields exactly `setupResultOf`. -/
lemma setup_ok_inv {σ β : Type} {E : Engine σ β} {rl : Nat} {prompt : String}
    {s : SetupResult σ} (h : setupPhase E rl prompt = Except.ok s) :
    s = setupResultOf E rl prompt := by
  unfold setupPhase at h
  by_cases hc : (E.tokenize E.init prompt).1 < 1
  · rw [if_pos hc] at h; exact absurd h (by simp)
  · rw [if_neg hc] at h
    injection h with h
    exact h.symm

/-- When the tokenizer reports at least one token, the prompt phase succeeds. -/
lemma setup_ok_of {σ β : Type} (E : Engine σ β) (rl : Nat) (prompt : String)
    (h : ¬ (E.tokenize E.init prompt).1 < 1) :
    setupPhase E rl prompt = Except.ok (setupResultOf E rl prompt) := by
  unfold setupPhase
  rw [if_neg h]

/-- The generation loop only appends: its final history is the initial
history followed by exactly the emitted tokens. -/
lemma genLoop_hist {σ β : Type} (E : Engine σ β) :
    ∀ (n : Nat) (ctx : σ) (hist : List Token) (p : Nat),
      (genLoop E n ctx hist p).hist = hist ++ (genLoop E n ctx hist p).tokens := by
  intro n
  induction n with
  | zero => intro ctx hist p; simp [genLoop]
  | succ n ih =>
    intro ctx hist p
    simp only [genLoop]
    split
    · simp only
      rw [ih]
      simp
    · simp

/-- Every eval call of the generation loop is passed the position counter
current before it, and the counter advances by the evaluated token count. -/
lemma genLoop_pos {σ β : Type} (E : Engine σ β) :
    ∀ (n : Nat) (ctx : σ) (hist : List Token) (p : Nat),
      posConsistent p (genLoop E n ctx hist p).calls = true := by
  intro n
  induction n with
  | zero => intro ctx hist p; simp [genLoop, posConsistent]
  | succ n ih =>
    intro ctx hist p
    simp only [genLoop]
    split
    · simp only
      simp [posConsistent, ih]
    · simp [posConsistent]

/-- When the generation loop stops on an eval failure, the final position
counter is exactly the position passed to the failed call: the counter is
never advanced past a failed step. -/
lemma genLoop_fail_calls {σ β : Type} (E : Engine σ β) :
    ∀ (n : Nat) (ctx : σ) (hist : List Token) (p : Nat),
      (genLoop E n ctx hist p).ok = false →
      ∃ pre, (genLoop E n ctx hist p).calls
        = pre ++ [((genLoop E n ctx hist p).nPast, 1)] := by
  intro n
  induction n with
  | zero => intro ctx hist p h; simp [genLoop] at h
  | succ n ih =>
    intro ctx hist p h
    simp only [genLoop] at h ⊢
    split at h
    · next hb =>
      rw [if_pos hb]
      simp only at h ⊢
      obtain ⟨pre, hp⟩ := ih _ _ _ h
      exact ⟨(p, 1) :: pre, by rw [hp]; rfl⟩
    · next hb =>
      rw [if_neg hb]
      exact ⟨[], rfl⟩

/-- A state size differing from the fresh context's required size is
rejected with `SizeMismatch`, whatever the file holds. -/
lemma loadPhase_mismatch {σ β : Type} (E : Engine σ β) (file : List β)
    (stateSize : Nat) (h : stateSize ≠ E.getStateSize E.init) :
    loadPhase E file stateSize = Except.error ExitErr.SizeMismatch := by
  unfold loadPhase
  rw [if_pos h]

/-- A short read (file holds fewer bytes than the validated state size) is
rejected with `IOError`. -/
lemma loadPhase_short {σ β : Type} (E : Engine σ β) (file : List β)
    (stateSize : Nat) (hc : stateSize = E.getStateSize E.init)
    (hshort : file.length < stateSize) :
    loadPhase E file stateSize = Except.error ExitErr.IOError := by
  unfold loadPhase
  rw [if_neg (by simp [hc])]
  rw [if_pos]
  simp only [List.length_take]
  omega

/-- Under the Engine Handle contract (size is configuration-derived, capture
writes exactly the reported size, restore of a captured state reproduces the
captured context), loading a captured state into a fresh context succeeds
and yields the captured context. -/
lemma loadPhase_roundtrip {σ β : Type} (E : Engine σ β)
    (hsz : ∀ a b : σ, E.getStateSize a = E.getStateSize b)
    (hlen : ∀ a : σ, (E.copyStateData a).length = E.getStateSize a)
    (hrt : ∀ a : σ, E.setStateData E.init (E.copyStateData a) = a)
    (a : σ) :
    loadPhase E (E.copyStateData a) (E.getStateSize a) = Except.ok a := by
  unfold loadPhase
  rw [← hsz a E.init]
  rw [← hlen a]
  simp [List.take_length, hrt a]

/-- The first run's printed sequence does not depend on the durable-storage
write model: whatever happened to the state-file write, run 1 is executed in
full and its tokens are S1. -/
lemma afterSetup_s1 {σ β : Type} (E : Engine σ β) (f : List β → List β)
    (np : Nat) (s : SetupResult σ) :
    (afterSetup E f np s).s1 = (genLoop E np s.ctx s.hist s.nPast).tokens := by
  simp only [afterSetup, checkpointPhase]
  split
  · split
    · rfl
    · split <;> rfl
  · rfl

/-- The first context's eval-call trace does not depend on the
durable-storage write model. -/
lemma afterSetup_calls1 {σ β : Type} (E : Engine σ β) (f : List β → List β)
    (np : Nat) (s : SetupResult σ) :
    (afterSetup E f np s).calls1 = s.calls ++ (genLoop E np s.ctx s.hist s.nPast).calls := by
  simp only [afterSetup, checkpointPhase]
  split
  · split
    · rfl
    · split <;> rfl
  · rfl

/-- The second context's eval-call trace is either empty (a failure before
run 2) or the trace of a generation loop started from the checkpoint's saved
history and position. -/
lemma afterSetup_calls2 {σ β : Type} (E : Engine σ β) (f : List β → List β)
    (np : Nat) (s : SetupResult σ) :
    (afterSetup E f np s).calls2 = [] ∨
    ∃ c2 : σ, (afterSetup E f np s).calls2 = (genLoop E np c2 s.hist s.nPast).calls := by
  simp only [afterSetup, checkpointPhase]
  split
  · split
    · exact Or.inl rfl
    · rename_i c2 _
      split
      · exact Or.inr ⟨c2, rfl⟩
      · exact Or.inr ⟨c2, rfl⟩
  · exact Or.inl rfl

/-- The exit code is 0 exactly when no phase failed. -/
lemma afterSetup_exit_iff {σ β : Type} (E : Engine σ β) (f : List β → List β)
    (np : Nat) (s : SetupResult σ) :
    (afterSetup E f np s).exitCode = 0 ↔ (afterSetup E f np s).err = none := by
  simp only [afterSetup, checkpointPhase]
  split
  · split
    · simp
    · split <;> simp
  · simp

/-- When run 1 succeeded and the restore produced some context `c2`, the
second printed sequence is the output of a generation loop started from `c2`
with the checkpoint's saved history and position. -/
lemma afterSetup_s2 {σ β : Type} (E : Engine σ β) (f : List β → List β)
    (np : Nat) (s : SetupResult σ) (c2 : σ)
    (h1 : (genLoop E np s.ctx s.hist s.nPast).ok = true)
    (hl : loadPhase E (f (E.copyStateData s.ctx)) (E.getStateSize s.ctx) = Except.ok c2) :
    (afterSetup E f np s).s2 = (genLoop E np c2 s.hist s.nPast).tokens := by
  simp only [afterSetup, checkpointPhase]
  rw [if_pos h1, hl]
  split
  · rename_i hq
    exact absurd hq (by simp)
  · rename_i x2 hq
    injection hq with hq
    subst hq
    split <;> rfl

/-- With the contract hypotheses and a faithful durable store, the whole
tail of the program after the prompt phase reduces to the first run's
outcome duplicated: the restore reproduces the checkpoint context exactly,
so run 2 is the very same computation as run 1. -/
lemma afterSetup_id {σ β : Type} (E : Engine σ β)
    (hsz : ∀ a b : σ, E.getStateSize a = E.getStateSize b)
    (hlen : ∀ a : σ, (E.copyStateData a).length = E.getStateSize a)
    (hrt : ∀ a : σ, E.setStateData E.init (E.copyStateData a) = a)
    (np : Nat) (s : SetupResult σ) :
    afterSetup E id np s =
      if (genLoop E np s.ctx s.hist s.nPast).ok then
        ⟨0, none, (genLoop E np s.ctx s.hist s.nPast).tokens,
         (genLoop E np s.ctx s.hist s.nPast).tokens,
         s.calls ++ (genLoop E np s.ctx s.hist s.nPast).calls,
         (genLoop E np s.ctx s.hist s.nPast).calls⟩
      else
        ⟨1, some ExitErr.EvaluateError, (genLoop E np s.ctx s.hist s.nPast).tokens, [],
         s.calls ++ (genLoop E np s.ctx s.hist s.nPast).calls, []⟩ := by
  have hl : loadPhase E (id (E.copyStateData s.ctx)) (E.getStateSize s.ctx)
      = Except.ok s.ctx := loadPhase_roundtrip E hsz hlen hrt s.ctx
  simp only [afterSetup, checkpointPhase]
  split
  · next h1 =>
    rw [hl]
    split
    · rename_i hq
      exact absurd hq (by simp)
    · rename_i x2 hq
      injection hq with hq
      subst hq
      rw [if_pos h1]
  · rfl

/-- Unfolding of the program on a failed prompt phase. -/
lemma runProgram_err {σ β : Type} {E : Engine σ β} {rl : Nat} {prompt : String}
    {e : ExitErr} (f : List β → List β) (npP : Int)
    (hs : setupPhase E rl prompt = Except.error e) :
    runProgram E f prompt npP rl = ⟨1, some e, [], [], [], []⟩ := by
  unfold runProgram
  rw [hs]

/-- Unfolding of the program on a successful prompt phase. -/
lemma runProgram_ok {σ β : Type} {E : Engine σ β} {rl : Nat} {prompt : String}
    {s : SetupResult σ} (f : List β → List β) (npP : Int)
    (hs : setupPhase E rl prompt = Except.ok s) :
    runProgram E f prompt npP rl = afterSetup E f ((effectiveNPredict npP).toNat) s := by
  unfold runProgram
  rw [hs]

/-- C1: Determinism under restore.  For a fixed model, configuration, prompt
and deterministic sampling policy — an engine satisfying the Engine Handle
contract (state size is configuration-derived, capture writes exactly the
reported size, restoring a captured state into a fresh context reproduces
the captured context) — and a faithful durable store, whenever the program
runs to completion (both generation runs executed), the sequence S1 of the
first run and the sequence S2 of the second run, generated on a freshly
created context restored from the persisted state with token history and
position counter reset to the checkpoint copies, are identical token for
token; the quantification over every `nPredictParam` includes all
`n_predict ≥ 0`. -/
theorem determinism_under_restore {σ β : Type} (E : Engine σ β)
    (hsz : ∀ a b : σ, E.getStateSize a = E.getStateSize b)
    (hlen : ∀ a : σ, (E.copyStateData a).length = E.getStateSize a)
    (hrt : ∀ a : σ, E.setStateData E.init (E.copyStateData a) = a)
    (prompt : String) (nPredictParam : Int) (rl : Nat)
    (hdone : (runProgram E id prompt nPredictParam rl).exitCode = 0) :
    (runProgram E id prompt nPredictParam rl).s1
      = (runProgram E id prompt nPredictParam rl).s2 := by
  cases hs : setupPhase E rl prompt with
  | error e =>
    rw [runProgram_err id nPredictParam hs] at hdone
    simp at hdone
  | ok s =>
    rw [runProgram_ok id nPredictParam hs] at hdone ⊢
    rw [afterSetup_id E hsz hlen hrt] at hdone ⊢
    by_cases h1 : (genLoop E ((effectiveNPredict nPredictParam).toNat)
        s.ctx s.hist s.nPast).ok = true
    · rw [if_pos h1]
    · rw [if_neg h1] at hdone
      simp at hdone

/-- C1 witness: a concrete contract-satisfying engine on which the program
completes with exit code 0 and the two printed sequences agree. -/
theorem determinism_under_restore_witness :
    (runProgram goodEngine id samplePrompt 2 1).exitCode = 0
    ∧ (runProgram goodEngine id samplePrompt 2 1).s1
        = (runProgram goodEngine id samplePrompt 2 1).s2 :=
  ⟨by decide, determinism_under_restore goodEngine (fun _ _ => rfl) (fun _ => rfl)
      (fun _ => rfl) samplePrompt 2 1 (by decide)⟩

/-- C2 counterexample: the source never compares the two sequences.  With an
engine whose restore operation violates the contract, the two runs print
different sequences, yet the program reports nothing and exits with
status 0 — so the program's outcome does not depend on S1 = S2, refuting
the claim at this concrete input. -/
theorem no_sequence_comparison_counterexample :
    (runProgram badRestoreEngine id samplePrompt 2 1).exitCode = 0
    ∧ (runProgram badRestoreEngine id samplePrompt 2 1).err = none
    ∧ (runProgram badRestoreEngine id samplePrompt 2 1).s1
        ≠ (runProgram badRestoreEngine id samplePrompt 2 1).s2 := by
  decide

/-- C2 amended: after the two generation runs the program performs no
comparison of S1 and S2 and reports no divergence; its outcome is the exit
status alone, and that depends only on whether each phase succeeded — the
exit code is 0 exactly when no phase reported an error, irrespective of
whether the two sequences are equal. -/
theorem exit_status_ignores_sequence_equality {σ β : Type} (E : Engine σ β)
    (fsW : List β → List β) (prompt : String) (npP : Int) (rl : Nat) :
    (runProgram E fsW prompt npP rl).exitCode = 0
      ↔ (runProgram E fsW prompt npP rl).err = none := by
  cases hs : setupPhase E rl prompt with
  | error e => rw [runProgram_err fsW npP hs]; simp
  | ok s => rw [runProgram_ok fsW npP hs]; exact afterSetup_exit_iff E fsW _ s

/-- C2 amended witness: the exit-status/error equivalence on a concrete
complete run. -/
theorem exit_status_ignores_sequence_equality_witness :
    (runProgram goodEngine id samplePrompt 2 1).exitCode = 0
      ↔ (runProgram goodEngine id samplePrompt 2 1).err = none :=
  exit_status_ignores_sequence_equality goodEngine id samplePrompt 2 1

/-- C3: restoring a state whose recorded size differs from the required
state size of the freshly created target context fails with `SizeMismatch`;
the conclusion holds for every file content (no byte of the file is
consulted before the size check) and for every restore operation
substituted into the engine (the buffer is never, even partially, applied). -/
theorem size_mismatch_rejection {σ β : Type} (E : Engine σ β) (stateSize : Nat)
    (h : stateSize ≠ E.getStateSize E.init) (file : List β) (g : σ → List β → σ) :
    loadPhase E file stateSize = Except.error ExitErr.SizeMismatch
    ∧ loadPhase (withSetState E g) file stateSize = Except.error ExitErr.SizeMismatch :=
  ⟨loadPhase_mismatch E file stateSize h, loadPhase_mismatch _ file stateSize h⟩

/-- C3 witness: a mismatching size (2 instead of 1) is rejected. -/
theorem size_mismatch_rejection_witness :
    loadPhase goodEngine ([] : List Int) 2 = Except.error ExitErr.SizeMismatch :=
  (size_mismatch_rejection goodEngine 2 (by decide) [] fun _ _ => 0).1

/-- C4: when the persisted file yields fewer bytes than the required state
size, the load fails with `IOError`; the missing bytes are not zero-padded
(the result is a failure, not a padded restore), and the restore operation
is never invoked — the same failure results for every restore operation
substituted into the engine. -/
theorem short_read_rejection {σ β : Type} (E : Engine σ β) (file : List β)
    (stateSize : Nat) (hc : stateSize = E.getStateSize E.init)
    (hshort : file.length < stateSize) (g : σ → List β → σ) :
    loadPhase E file stateSize = Except.error ExitErr.IOError
    ∧ loadPhase (withSetState E g) file stateSize = Except.error ExitErr.IOError :=
  ⟨loadPhase_short E file stateSize hc hshort, loadPhase_short _ file stateSize hc hshort⟩

/-- C4 witness: an empty file against a required size of 1 byte. -/
theorem short_read_rejection_witness :
    loadPhase goodEngine ([] : List Int) 1 = Except.error ExitErr.IOError :=
  (short_read_rejection goodEngine [] 1 rfl (by decide) fun _ _ => 0).1

/-- C5 counterexample: write failures in the Persist block are locally
swallowed.  With a durable store whose state-file write fails (leaving an
empty file), the Persist block surfaces no error and does not halt the run:
the full first generation run still executes, with exactly the same output
as under a working store; the failure surfaces only later, at Load, as a
short read — refuting the claim that every write failure is detected and
surfaced as a fatal `IOError` that halts the run, at this concrete input. -/
theorem write_failure_swallowed_counterexample :
    (runProgram goodEngine (fun _ => ([] : List Int)) samplePrompt 2 1).s1 = [2, 3]
    ∧ (runProgram goodEngine (fun _ => ([] : List Int)) samplePrompt 2 1).s1
        = (runProgram goodEngine id samplePrompt 2 1).s1
    ∧ (runProgram goodEngine (fun _ => ([] : List Int)) samplePrompt 2 1).err
        = some ExitErr.IOError := by
  decide

/-- C5 amended: read failures at Load are detected — a short read is a
fatal `IOError`, never zero-padded — but the Persist block performs no
error detection at all: the program's first run output and eval-call trace
are identical under every durable-storage write model, so a write failure
is locally swallowed and only surfaces later, at Load, as a short read. -/
theorem io_error_surfacing_amended {σ β : Type} (E : Engine σ β)
    (fsW fsW' : List β → List β) (prompt : String) (npP : Int) (rl : Nat) :
    (runProgram E fsW prompt npP rl).s1 = (runProgram E fsW' prompt npP rl).s1
    ∧ (runProgram E fsW prompt npP rl).calls1
        = (runProgram E fsW' prompt npP rl).calls1
    ∧ (∀ (file : List β) (stateSize : Nat), stateSize = E.getStateSize E.init →
        file.length < stateSize →
        loadPhase E file stateSize = Except.error ExitErr.IOError) := by
  refine ⟨?_, ?_, fun file n hc hshort => loadPhase_short E file n hc hshort⟩
  · cases hs : setupPhase E rl prompt with
    | error e => rw [runProgram_err fsW npP hs, runProgram_err fsW' npP hs]
    | ok s =>
      rw [runProgram_ok fsW npP hs, runProgram_ok fsW' npP hs,
        afterSetup_s1, afterSetup_s1]
  · cases hs : setupPhase E rl prompt with
    | error e => rw [runProgram_err fsW npP hs, runProgram_err fsW' npP hs]
    | ok s =>
      rw [runProgram_ok fsW npP hs, runProgram_ok fsW' npP hs,
        afterSetup_calls1, afterSetup_calls1]

/-- C5 amended witness: run-1 output unchanged under a failing write model,
and a concrete short read rejected at Load. -/
theorem io_error_surfacing_witness :
    (runProgram goodEngine (fun _ => ([] : List Int)) samplePrompt 2 1).s1
      = (runProgram goodEngine id samplePrompt 2 1).s1
    ∧ loadPhase emptyTokEngine ([] : List Int) 1 = Except.error ExitErr.IOError :=
  ⟨(io_error_surfacing_amended goodEngine (fun _ => []) id samplePrompt 2 1).1,
   (io_error_surfacing_amended emptyTokEngine id id samplePrompt 2 1).2.2
      [] 1 rfl (by decide)⟩

/-- C6 counterexample: the prompt evaluation's status is discarded
(line 58 of the source).  With an engine whose every `eval` reports
failure, the prompt evaluate-step at position 0 fails, yet the prompt
phase succeeds, the position counter is still advanced to the prompt
length 2, and the program (with `n_predict = 0`) runs to completion with
exit code 0 — refuting, at this concrete input, the claim that a failed
evaluate-step stops the run without advancing the counter "for the prompt
evaluation as well". -/
theorem prompt_eval_failure_ignored_counterexample :
    (failEvalEngine.eval failEvalEngine.init [5, 6] 0).1 = false
    ∧ setupPhase failEvalEngine 1 samplePrompt
        = Except.ok ⟨0, [0, 5, 6], 2, [(0, 2)], false⟩
    ∧ (runProgram failEvalEngine id samplePrompt 0 1).exitCode = 0 := by
  refine ⟨by decide, ?_, by decide⟩
  rfl

/-- C6 amended: the position counter starts at zero and every evaluate-step
call is passed the counter value current before it, the counter advancing
by that step's token count — for the prompt call and for every generation
step of both runs; a generation step whose evaluation fails stops its run
immediately with the final counter equal to the failed call's position.
However, the prompt evaluation's status is discarded: the counter is
advanced by the prompt length whether or not the prompt evaluation
succeeded. -/
theorem position_counter_discipline_amended {σ β : Type} (E : Engine σ β)
    (fsW : List β → List β) (prompt : String) (npP : Int) (rl : Nat) :
    posConsistent 0 (runProgram E fsW prompt npP rl).calls1 = true
    ∧ (∀ s : SetupResult σ, setupPhase E rl prompt = Except.ok s →
        posConsistent s.nPast (runProgram E fsW prompt npP rl).calls2 = true)
    ∧ (∀ (fuel : Nat) (c : σ) (hist : List Token) (n0 : Nat),
        (genLoop E fuel c hist n0).ok = false →
        ∃ pre, (genLoop E fuel c hist n0).calls
          = pre ++ [((genLoop E fuel c hist n0).nPast, 1)])
    ∧ (∀ s : SetupResult σ, setupPhase E rl prompt = Except.ok s →
        s.nPast = (E.tokenize E.init prompt).1.toNat
        ∧ s.calls = [(0, (E.tokenize E.init prompt).1.toNat)]) := by
  refine ⟨?_, ?_, genLoop_fail_calls E, ?_⟩
  · cases hs : setupPhase E rl prompt with
    | error e => rw [runProgram_err fsW npP hs]; rfl
    | ok s =>
      rw [runProgram_ok fsW npP hs, afterSetup_calls1]
      have hsv := setup_ok_inv hs
      subst hsv
      simp only [setupResultOf, List.singleton_append]
      simp [posConsistent, genLoop_pos]
  · intro s hs
    rw [runProgram_ok fsW npP hs]
    rcases afterSetup_calls2 E fsW ((effectiveNPredict npP).toNat) s with h | ⟨c2, h⟩
    · rw [h]; rfl
    · rw [h]; exact genLoop_pos E _ c2 s.hist s.nPast
  · intro s hs
    have hsv := setup_ok_inv hs
    subst hsv
    exact ⟨rfl, rfl⟩

/-- C6 amended witness: the position-consistency of both traces on a
concrete complete run. -/
theorem position_counter_discipline_witness :
    posConsistent 0 (runProgram goodEngine id samplePrompt 2 1).calls1 = true
    ∧ posConsistent (setupResultOf goodEngine 1 samplePrompt).nPast
        (runProgram goodEngine id samplePrompt 2 1).calls2 = true :=
  ⟨(position_counter_discipline_amended goodEngine id samplePrompt 2 1).1,
   (position_counter_discipline_amended goodEngine id samplePrompt 2 1).2.1
      (setupResultOf goodEngine 1 samplePrompt)
      (setup_ok_of goodEngine 1 samplePrompt (by decide))⟩

/-- C7: BuildCandidates constructs from the logits exactly one candidate
per vocabulary entry, in vocabulary order — the candidate set has size
`n_vocab`, and the entry at position `i` is `(i, logits i, 0)`; moreover
the candidate set is built fresh from the current context's logits at every
generation step (the step's sampled token is the sampler's output on
exactly that candidate set) and is consumed immediately, never stored. -/
theorem build_candidates_spec (L : Nat → Int) (n : Nat) :
    (buildCandidates L n).length = n
    ∧ (∀ i : Nat, i < n → (buildCandidates L n)[i]? = some ⟨(i : Int), L i, 0⟩)
    ∧ (∀ {σ β : Type} (E : Engine σ β) (m : Nat) (c : σ) (hist : List Token) (p : Nat),
        (genLoop E (m + 1) c hist p).tokens.head?
          = some (E.sampleToken c (buildCandidates (E.getLogits c) (E.nVocab c))).1) := by
  refine ⟨by simp [buildCandidates], fun i hi => ?_, fun E m c hist p => ?_⟩
  · rw [buildCandidates, List.getElem?_map, List.getElem?_range hi]
    rfl
  · simp only [genLoop]
    split <;> rfl

/-- C7 witness: the candidate list of a vocabulary of size 4. -/
theorem build_candidates_witness :
    (buildCandidates (fun _ => (7 : Int)) 4).length = 4
    ∧ (buildCandidates (fun _ => (7 : Int)) 4)[2]? = some ⟨2, 7, 0⟩ :=
  ⟨(build_candidates_spec (fun _ => (7 : Int)) 4).1,
   (build_candidates_spec (fun _ => (7 : Int)) 4).2.1 2 (by decide)⟩

/-- C8: the checkpoint copy of the token history is a value copy: it equals
the history at the checkpoint instant; the first run only appends to the
live history (final history = checkpoint history ++ emitted tokens), so
after a nonempty run the live history differs from the captured copy, which
is unchanged; and at the restore point the second run is started exactly
from the checkpoint's saved history and saved position counter. -/
theorem checkpoint_value_copy {σ β : Type} (E : Engine σ β)
    (fsW : List β → List β) (prompt : String) (npP : Int) (rl : Nat)
    (s : SetupResult σ) (hs : setupPhase E rl prompt = Except.ok s) :
    (checkpointPhase E fsW s.ctx s.hist s.nPast).savedHist = s.hist
    ∧ (checkpointPhase E fsW s.ctx s.hist s.nPast).savedNPast = s.nPast
    ∧ (genLoop E ((effectiveNPredict npP).toNat) s.ctx s.hist s.nPast).hist
        = s.hist ++ (genLoop E ((effectiveNPredict npP).toNat) s.ctx s.hist s.nPast).tokens
    ∧ ((genLoop E ((effectiveNPredict npP).toNat) s.ctx s.hist s.nPast).tokens ≠ [] →
        (genLoop E ((effectiveNPredict npP).toNat) s.ctx s.hist s.nPast).hist
          ≠ (checkpointPhase E fsW s.ctx s.hist s.nPast).savedHist)
    ∧ (∀ c2 : σ,
        (genLoop E ((effectiveNPredict npP).toNat) s.ctx s.hist s.nPast).ok = true →
        loadPhase E (fsW (E.copyStateData s.ctx)) (E.getStateSize s.ctx)
          = Except.ok c2 →
        (runProgram E fsW prompt npP rl).s2
          = (genLoop E ((effectiveNPredict npP).toNat) c2
              (checkpointPhase E fsW s.ctx s.hist s.nPast).savedHist
              (checkpointPhase E fsW s.ctx s.hist s.nPast).savedNPast).tokens) := by
  refine ⟨rfl, rfl, genLoop_hist E _ s.ctx s.hist s.nPast, ?_, ?_⟩
  · intro hne heq
    apply hne
    have hh := genLoop_hist E ((effectiveNPredict npP).toNat) s.ctx s.hist s.nPast
    have hcat : s.hist ++ (genLoop E ((effectiveNPredict npP).toNat)
        s.ctx s.hist s.nPast).tokens = s.hist := by rw [← hh]; exact heq
    have hz := congrArg List.length hcat
    simp [List.length_append] at hz
    exact hz
  · intro c2 h1 hl
    rw [runProgram_ok fsW npP hs]
    exact afterSetup_s2 E fsW _ s c2 h1 hl

/-- C8 witness: the captured history copy on a concrete run. -/
theorem checkpoint_value_copy_witness :
    (checkpointPhase goodEngine id (setupResultOf goodEngine 1 samplePrompt).ctx
        (setupResultOf goodEngine 1 samplePrompt).hist
        (setupResultOf goodEngine 1 samplePrompt).nPast).savedHist
      = (setupResultOf goodEngine 1 samplePrompt).hist :=
  (checkpoint_value_copy goodEngine id samplePrompt 2 1
      (setupResultOf goodEngine 1 samplePrompt)
      (setup_ok_of goodEngine 1 samplePrompt (by decide))).1

/-- C9: a tokenization reporting fewer than one token makes the program
fail with `TokenizeError` before any evaluation, snapshot or generation
(empty call traces and empty sequences); otherwise the prompt phase
succeeds, the full prompt is evaluated in a single call at position 0, and
all prompt tokens are appended to the zero-initialized history window. -/
theorem tokenize_gate_spec {σ β : Type} (E : Engine σ β) (fsW : List β → List β)
    (prompt : String) (npP : Int) (rl : Nat) :
    ((E.tokenize E.init prompt).1 < 1 →
      runProgram E fsW prompt npP rl
        = ⟨1, some ExitErr.TokenizeError, [], [], [], []⟩)
    ∧ (¬ (E.tokenize E.init prompt).1 < 1 →
      setupPhase E rl prompt = Except.ok (setupResultOf E rl prompt)
      ∧ (setupResultOf E rl prompt).calls = [(0, (E.tokenize E.init prompt).1.toNat)]
      ∧ (setupResultOf E rl prompt).hist
          = List.replicate rl 0
            ++ (E.tokenize E.init prompt).2.take (E.tokenize E.init prompt).1.toNat) := by
  constructor
  · intro h
    have hs : setupPhase E rl prompt = Except.error ExitErr.TokenizeError := by
      unfold setupPhase
      rw [if_pos h]
    exact runProgram_err fsW npP hs
  · intro h
    exact ⟨setup_ok_of E rl prompt h, rfl, rfl⟩

/-- C9 witness: an engine reporting zero prompt tokens exits with
`TokenizeError` and empty traces. -/
theorem tokenize_gate_witness :
    runProgram emptyTokEngine id samplePrompt 2 1
      = ⟨1, some ExitErr.TokenizeError, [], [], [], []⟩ :=
  (tokenize_gate_spec emptyTokEngine id samplePrompt 2 1).1 (by decide)

/-- C10: a negative configured `n_predict` is replaced by 16 before any
generation; and at `n_predict = 0` both generation loops run zero
iterations while the program still performs the complete snapshot, persist,
destroy, recreate, load, size-check and restore sequence, exiting with
status 0 and empty sequences (so determinism holds vacuously there). -/
theorem n_predict_default_and_zero {σ β : Type} (E : Engine σ β)
    (hsz : ∀ a b : σ, E.getStateSize a = E.getStateSize b)
    (hlen : ∀ a : σ, (E.copyStateData a).length = E.getStateSize a)
    (hrt : ∀ a : σ, E.setStateData E.init (E.copyStateData a) = a)
    (prompt : String) (rl : Nat)
    (hTok : ¬ (E.tokenize E.init prompt).1 < 1) :
    (∀ n : Int, n < 0 → effectiveNPredict n = 16)
    ∧ runProgram E id prompt 0 rl
        = ⟨0, none, [], [], (setupResultOf E rl prompt).calls, []⟩ := by
  constructor
  · intro n hn
    unfold effectiveNPredict
    rw [if_pos hn]
  · rw [runProgram_ok id 0 (setup_ok_of E rl prompt hTok)]
    rw [afterSetup_id E hsz hlen hrt]
    have h0 : ((effectiveNPredict 0).toNat) = 0 := by decide
    rw [h0]
    simp [genLoop]

/-- C10 witness: the default replacement at `n_predict = -5` and the
complete zero-iteration round trip on a concrete engine. -/
theorem n_predict_default_and_zero_witness :
    effectiveNPredict (-5) = 16
    ∧ runProgram goodEngine id samplePrompt 0 1
        = ⟨0, none, [], [], (setupResultOf goodEngine 1 samplePrompt).calls, []⟩ :=
  ⟨(n_predict_default_and_zero goodEngine (fun _ _ => rfl) (fun _ => rfl)
      (fun _ => rfl) samplePrompt 1 (by decide)).1 (-5) (by decide),
   (n_predict_default_and_zero goodEngine (fun _ _ => rfl) (fun _ => rfl)
      (fun _ => rfl) samplePrompt 1 (by decide)).2⟩

end SaveLoadState
